import Mathlib

/-!
# Verification of the Wander Albay recommendation, import and itinerary logic

This development shallowly embeds the decision logic of the tourism web
application: the three preference-based recommendation scorers
(`PersonalizedFeed.tsx`, `PostOnboardingSpotSelection.tsx` and the
post-onboarding accommodation selection), the district lookup, the CSV bulk
importer (`BulkImport.tsx`) and the add-to-itinerary operations
(`AddToItineraryDialog` and `MyItinerary.tsx`).

Strings are embedded as Lean `String`s, but every operation on them
(`toLowerCase`, `includes`, `split`, `trim`, `startsWith`, `endsWith`,
`join`) is re-implemented here by structural recursion over the character
list, mirroring the JavaScript semantics for single-character separators,
so that every definition evaluates inside the kernel.

JavaScript numbers are embedded as exact rationals (`Score` below); the
scores the program computes are sums of integer weights plus a rating
boost `rating / 5 * 2`, all of which are exact in rational arithmetic.
-/

namespace Wander

/-! ## String primitives (JavaScript semantics, kernel-computable) -/

/-- Lowercase every character (ASCII case folding, as `Char.toLower`).
Embeds JavaScript `String.prototype.toLowerCase` for the character
repertoire appearing in this application. -/
def lowerStr (s : String) : String := String.mk (s.data.map Char.toLower)

/-- `isPrefixOfCL a b` is true when the character list `a` is a prefix of `b`. -/
def isPrefixOfCL : List Char → List Char → Bool
  | [], _ => true
  | _ :: _, [] => false
  | a :: as, b :: bs => a == b && isPrefixOfCL as bs

/-- `infixOfCL needle hay` is true when `needle` occurs contiguously in `hay`. -/
def infixOfCL (needle : List Char) : List Char → Bool
  | [] => isPrefixOfCL needle []
  | hay@(_ :: rest) => isPrefixOfCL needle hay || infixOfCL needle rest

/-- Embeds JavaScript `a.includes(b)`: `b` occurs as a substring of `a`. -/
def jsIncludes (a b : String) : Bool := infixOfCL b.data a.data

/-- Split on a single-character separator; embeds JavaScript
`String.prototype.split` with a one-character separator string. -/
def splitCharAux (sep : Char) : List Char → List Char → List (List Char)
  | [], acc => [acc.reverse]
  | c :: rest, acc =>
    if c == sep then acc.reverse :: splitCharAux sep rest []
    else splitCharAux sep rest (c :: acc)

/-- `splitStr sep s` splits `s` at every occurrence of the character `sep`. -/
def splitStr (sep : Char) (s : String) : List String :=
  (splitCharAux sep s.data []).map String.mk

/-- Embeds JavaScript `String.prototype.trim` (whitespace stripped from both
ends). -/
def trimStr (s : String) : String :=
  String.mk (((s.data.dropWhile Char.isWhitespace).reverse.dropWhile
    Char.isWhitespace).reverse)

/-- Embeds JavaScript `String.prototype.startsWith`. -/
def startsWithStr (s pre : String) : Bool := isPrefixOfCL pre.data s.data

/-- Embeds JavaScript `String.prototype.endsWith`. -/
def endsWithStr (s suf : String) : Bool :=
  isPrefixOfCL suf.data.reverse s.data.reverse

/-- Embeds JavaScript `Array.prototype.join(" ")`. -/
def joinSpace : List String → String
  | [] => ""
  | [s] => s
  | s :: rest => s ++ " " ++ joinSpace rest

/-! ## Exact rational scores

JavaScript numbers are embedded as exact rationals.  The denominator is
stored as `pden + 1`, so it is positive by construction and all value
relations are kernel-decidable integer comparisons. -/

/-- An exact rational: value `num / (pden + 1)`. -/
structure Score where
  num : Int
  pden : Nat
deriving DecidableEq

namespace Score

/-- The (always positive) denominator. -/
def den (a : Score) : Int := (a.pden : Int) + 1

/-- Embed an integer. -/
def ofInt (n : Int) : Score := ⟨n, 0⟩

instance : OfNat Score n := ⟨ofInt n⟩

/-- Exact rational addition. -/
def add (a b : Score) : Score :=
  ⟨a.num * b.den + b.num * a.den, (a.pden + 1) * (b.pden + 1) - 1⟩

instance : Add Score := ⟨add⟩

/-- Value ordering (`a ≤ b` as rational numbers). -/
def vle (a b : Score) : Prop := a.num * b.den ≤ b.num * a.den

/-- Strict value ordering. -/
def vlt (a b : Score) : Prop := a.num * b.den < b.num * a.den

/-- Value equality (`a` and `b` denote the same rational). -/
def veq (a b : Score) : Prop := a.num * b.den = b.num * a.den

instance : DecidableRel vle := fun a b =>
  inferInstanceAs (Decidable (a.num * b.den ≤ b.num * a.den))

instance : DecidableRel vlt := fun a b =>
  inferInstanceAs (Decidable (a.num * b.den < b.num * a.den))

instance : DecidableRel veq := fun a b =>
  inferInstanceAs (Decidable (a.num * b.den = b.num * a.den))

theorem den_pos (a : Score) : 0 < a.den := by
  have : (0 : Int) ≤ (a.pden : Int) := Int.ofNat_nonneg a.pden
  unfold den; omega

theorem vle_total (a b : Score) : vle a b ∨ vle b a := by
  unfold vle; omega

theorem vlt_of_not_vle {a b : Score} (h : ¬ vle a b) : vlt b a := by
  unfold vle at h; unfold vlt; omega

/-- Two values equal to a third are value-equal to each other. -/
theorem veq_trans_ne {a x q : Score} (hax : vlt a x) (ha : veq a q) :
    ¬ veq x q := by
  intro hx
  unfold vlt at hax
  unfold veq at ha hx
  have hq : 0 < q.den := den_pos q
  have h1 : a.num * x.den * q.den = q.num * a.den * x.den := by
    calc a.num * x.den * q.den = a.num * q.den * x.den := by ring
    _ = q.num * a.den * x.den := by rw [ha]
  have h2 : x.num * a.den * q.den = q.num * a.den * x.den := by
    calc x.num * a.den * q.den = x.num * q.den * a.den := by ring
    _ = q.num * x.den * a.den := by rw [hx]
    _ = q.num * a.den * x.den := by ring
  have h3 : a.num * x.den * q.den = x.num * a.den * q.den := by rw [h1, h2]
  have h4 : a.num * x.den = x.num * a.den :=
    mul_right_cancel₀ (by omega) h3
  omega

end Score

/-! ## Data model

The preference record written by the onboarding wizards and read by every
recommender.  All fields are optional (absence embeds a missing/`null`/
falsy field).  The two onboarding wizard variants disagree on the shape of
the scenery preference (one stores a single string, the other a list of
strings), so that field is embedded with a dynamic shape; the remaining
fields are embedded at the single-string wizard's types. -/

/-- A JavaScript value that is either a string or an array of strings. -/
inductive StrOrList where
  | str (s : String)
  | list (l : List String)
deriving DecidableEq

/-- Truthiness of an optional string (JavaScript: `null`, `undefined` and
`""` are falsy). -/
def strTruthy : Option String → Bool
  | none => false
  | some s => !(s == "")

/-- Truthiness of an optional boolean. -/
def boolTruthy : Option Bool → Bool
  | none => false
  | some b => b

/-- The user-preferences record. -/
structure UserPreferences where
  albayDistrict : Option String := none
  travelerType : Option String := none
  activities : Option (List String) := none
  budgetRange : Option String := none
  placePreference : Option String := none
  accessibilityNeeded : Option Bool := none
  sceneryPreference : Option StrOrList := none
  travelCompanions : Option String := none
  autoRecommendations : Option Bool := none
deriving DecidableEq

/-- The preference record in which every field is absent. -/
def emptyPrefs : UserPreferences := {}

/-- A tourist-spot row as fetched from the `tourist_spots` table; every
column that is nullable in storage is optional. -/
structure TouristSpot where
  id : String := ""
  name : String := ""
  location : Option String := none
  municipality : Option String := none
  category : Option (List String) := none
  rating : Option Score := none
  is_hidden_gem : Option Bool := none
  budget_level : Option String := none
  accessibility_friendly : Option Bool := none
  scenery_type : Option (List String) := none
deriving DecidableEq

/-- An accommodation row as fetched from the `accommodations` table. -/
structure Accommodation where
  id : String := ""
  name : String := ""
  location : Option String := none
  municipality : Option String := none
  category : Option (List String) := none
  price_range : Option String := none
  amenities : Option (List String) := none
  rating : Option Score := none
deriving DecidableEq

instance {ε β : Type} [DecidableEq ε] [DecidableEq β] : DecidableEq (Except ε β) :=
  fun a b =>
    match a, b with
    | .ok x, .ok y =>
      if h : x = y then isTrue (by rw [h])
      else isFalse (by intro hc; cases hc; exact h rfl)
    | .error x, .error y =>
      if h : x = y then isTrue (by rw [h])
      else isFalse (by intro hc; cases hc; exact h rfl)
    | .ok _, .error _ => isFalse (by intro hc; cases hc)
    | .error _, .ok _ => isFalse (by intro hc; cases hc)

/-! ## Homepage personalized feed scorer (`PersonalizedFeed.tsx`,
`fetchPersonalizedSpots`) -/

/-- The district-to-municipality lookup written inline in
`fetchPersonalizedSpots` (and duplicated in `getDistrictMunicipalities` of
`NearbyInYourDistrict.tsx`). -/
def pfDistrictMunicipalities (d : String) : List String :=
  if d = "District 1" then ["Tabaco", "Tiwi", "Malinao", "Bacacay"]
  else if d = "District 2" then ["Legazpi", "Daraga", "Camalig", "Manito"]
  else if d = "District 3" then
    ["Ligao", "Guinobatan", "Pioduran", "Jovellar", "Oas", "Polangui", "Libon"]
  else []

/-- District signal: `+5` when the selected district is truthy, not
`"Any District"`, the spot has a truthy municipality, and some municipality
of the district's lookup list occurs (case-insensitively) in it. -/
def pfDistrictScore (p : UserPreferences) (s : TouristSpot) : Score :=
  match p.albayDistrict, s.municipality with
  | some d, some m =>
    if d ≠ "" ∧ d ≠ "Any District" ∧ m ≠ "" then
      if (pfDistrictMunicipalities d).any
          (fun mu => jsIncludes (lowerStr m) (lowerStr mu)) then 5 else 0
    else 0
  | _, _ => 0

/-- Traveler-type signal: `+3` per matching keyword rule. -/
def pfTravelerScore (p : UserPreferences) (s : TouristSpot) : Score :=
  match p.travelerType, s.category with
  | some t, some cat =>
    if t ≠ "" then
      (if t = "Nature Lover" ∧ cat.any (fun c =>
          jsIncludes (lowerStr c) "nature" || jsIncludes (lowerStr c) "eco")
        then 3 else 0)
      + (if t = "Adventure Seeker" ∧ cat.any (fun c =>
          jsIncludes (lowerStr c) "adventure" || jsIncludes (lowerStr c) "hiking")
        then 3 else 0)
      + (if t = "Food Explorer" ∧ cat.any (fun c =>
          jsIncludes (lowerStr c) "food" || jsIncludes (lowerStr c) "restaurant")
        then 3 else 0)
      + (if t = "Cultural/Historical Traveler" ∧ cat.any (fun c =>
          jsIncludes (lowerStr c) "cultural" || jsIncludes (lowerStr c) "historical")
        then 3 else 0)
    else 0
  | _, _ => 0

/-- Per-activity contribution inside the `forEach` over selected activities. -/
def pfActivityOne (cat : List String) (a : String) : Score :=
  (if jsIncludes a "Hiking" ∧ cat.any (fun c => jsIncludes (lowerStr c) "hiking")
    then 2 else 0)
  + (if jsIncludes a "Beach" ∧ cat.any (fun c => jsIncludes (lowerStr c) "beach")
    then 2 else 0)
  + (if jsIncludes a "Waterfall" ∧ cat.any (fun c => jsIncludes (lowerStr c) "waterfall")
    then 2 else 0)
  + (if jsIncludes a "Food" ∧ cat.any (fun c => jsIncludes (lowerStr c) "food")
    then 2 else 0)
  + (if jsIncludes a "Historical" ∧ cat.any (fun c => jsIncludes (lowerStr c) "historical")
    then 2 else 0)

/-- Activities signal: `+2` per selected activity whose keyword matches a
category tag. -/
def pfActivitiesScore (p : UserPreferences) (s : TouristSpot) : Score :=
  match p.activities, s.category with
  | some acts, some cat => (acts.map (pfActivityOne cat)).foldr Score.add 0
  | _, _ => 0

/-- The fixed three-entry budget table of the homepage feed. -/
def pfBudgetMap (b : String) : Option String :=
  if b = "Budget-friendly" then some "budget"
  else if b = "Moderate" then some "moderate"
  else if b = "Premium" then some "premium"
  else none

/-- Budget signal: `+2` when the spot's budget level strictly equals the
bucket the table maps the (truthy, non-`"No preference"`) choice to. -/
def pfBudgetScore (p : UserPreferences) (s : TouristSpot) : Score :=
  match p.budgetRange with
  | some b =>
    if b ≠ "" ∧ b ≠ "No preference" then
      match pfBudgetMap b, s.budget_level with
      | some target, some lvl => if lvl = target then 2 else 0
      | _, _ => 0
    else 0
  | none => 0

/-- Place-preference signal. -/
def pfPlaceScore (p : UserPreferences) (s : TouristSpot) : Score :=
  (if p.placePreference = some "Hidden Gems" ∧ boolTruthy s.is_hidden_gem
    then 3 else 0)
  + (if p.placePreference = some "Popular Tourist Spots" ∧ ¬ boolTruthy s.is_hidden_gem
    then 2 else 0)
  + (if p.placePreference = some "Both" then 1 else 0)

/-- Accessibility signal: `+3`. -/
def pfAccessibilityScore (p : UserPreferences) (s : TouristSpot) : Score :=
  if boolTruthy p.accessibilityNeeded ∧ boolTruthy s.accessibility_friendly
  then 3 else 0

/-- Scenery signal.  The preference record's scenery field may be a string
(one wizard variant) or a list of strings (the other variant).  With a list
shape the code calls `toLowerCase` on the array, which throws a `TypeError`
as soon as the `some` callback runs, i.e. when the spot's scenery list is
non-empty; the error is embedded as `Except.error ()`. -/
def pfSceneryScore (p : UserPreferences) (s : TouristSpot) : Except Unit Score :=
  match p.sceneryPreference, s.scenery_type with
  | some (.str sp), some st =>
    if sp ≠ "" ∧ sp ≠ "No preference" then
      .ok (if st.any (fun t =>
            jsIncludes (lowerStr t) (lowerStr sp) ||
            jsIncludes (lowerStr sp) (lowerStr t))
          then 2 else 0)
    else .ok 0
  | some (.list _), some [] => .ok 0
  | some (.list _), some (_ :: _) => .error ()
  | _, _ => .ok 0

/-- Rating boost: `(rating / 5) * 2` when the rating is truthy (non-zero). -/
def pfRatingScore (s : TouristSpot) : Score :=
  match s.rating with
  | some r => if ¬ Score.veq r 0 then ⟨r.num * 2, (r.pden + 1) * 5 - 1⟩ else 0
  | none => 0

/-- The per-spot score of the homepage feed (sum of all signals). -/
def pfScoreSpot (p : UserPreferences) (s : TouristSpot) : Except Unit Score :=
  match pfSceneryScore p s with
  | .error e => .error e
  | .ok scenery =>
    .ok (pfDistrictScore p s + pfTravelerScore p s + pfActivitiesScore p s
      + pfBudgetScore p s + pfPlaceScore p s + pfAccessibilityScore p s
      + scenery + pfRatingScore s)

/-- The scoring `.map` over the fetched rows, shared by the two spot
recommenders: annotate each row with its score; the first thrown
`TypeError` aborts the whole map. -/
def scoreAll (score : TouristSpot → Except Unit Score) :
    List TouristSpot → Except Unit (List (TouristSpot × Score))
  | [] => .ok []
  | s :: rest =>
    match score s, scoreAll score rest with
    | .ok q, .ok tail => .ok ((s, q) :: tail)
    | .error e, _ => .error e
    | _, .error e => .error e

/-- Score every fetched spot (the `allSpots?.map` step of the homepage feed). -/
def pfScoreSpots (p : UserPreferences) (spots : List TouristSpot) :
    Except Unit (List (TouristSpot × Score)) :=
  scoreAll (pfScoreSpot p) spots

/-- The descending-by-score ordering used by the stable `sort` comparator
`(a, b) => b.score - a.score`. -/
def byScoreDesc {α : Type} (a b : α × Score) : Prop := Score.vle b.2 a.2

instance {α : Type} : DecidableRel (byScoreDesc (α := α)) := fun a b =>
  inferInstanceAs (Decidable (Score.vle b.2 a.2))

/-- The homepage feed's filter-sort-truncate step: drop zero scores, stable
sort descending, keep the top `8`. -/
def pfSortTruncate (scored : List (TouristSpot × Score)) :
    List (TouristSpot × Score) :=
  ((scored.filter (fun x => decide (Score.vlt 0 x.2))).insertionSort
    byScoreDesc).take 8

/-- The full homepage-feed recommender: gate on `autoRecommendations`,
score, filter positives, stable-sort descending, truncate to 8. -/
def fetchPersonalizedSpots (p : UserPreferences) (spots : List TouristSpot) :
    Except Unit (List (TouristSpot × Score)) :=
  if boolTruthy p.autoRecommendations then
    Except.map pfSortTruncate (pfScoreSpots p spots)
  else .ok []

/-! ## Post-onboarding spot scorer (`PostOnboardingSpotSelection.tsx`,
`fetchRecommendedSpots`; duplicated verbatim in a second modal variant) -/

/-- District signal of the post-onboarding variant: `+3` when the selected
district NAME occurs, case-sensitively, in the spot's location string
(`spot.location?.includes(preferences.albayDistrict)`). -/
def postDistrictScore (p : UserPreferences) (s : TouristSpot) : Score :=
  match p.albayDistrict with
  | some d =>
    if d ≠ "" ∧ d ≠ "Any District" then
      match s.location with
      | some loc => if jsIncludes loc d then 3 else 0
      | none => 0
    else 0
  | none => 0

/-- Activities signal: the activities and category lists are joined with
spaces, lowercased, and matched by three keyword rules at `+2` each. -/
def postActivitiesScore (p : UserPreferences) (s : TouristSpot) : Score :=
  match p.activities, s.category with
  | some acts, some cat =>
    (if jsIncludes (lowerStr (joinSpace acts)) "hiking" ∧
        jsIncludes (lowerStr (joinSpace cat)) "adventure" then 2 else 0)
    + (if jsIncludes (lowerStr (joinSpace acts)) "beach" ∧
        jsIncludes (lowerStr (joinSpace cat)) "beach" then 2 else 0)
    + (if jsIncludes (lowerStr (joinSpace acts)) "food" ∧
        jsIncludes (lowerStr (joinSpace cat)) "food" then 2 else 0)
  | _, _ => 0

/-- Scenery signal of the post-onboarding variant: `+2` when some scenery
tag of the spot occurs in the (string-shaped) preference; a list-shaped
preference throws a `TypeError` as soon as the spot's scenery list is
non-empty. -/
def postSceneryScore (p : UserPreferences) (s : TouristSpot) : Except Unit Score :=
  match p.sceneryPreference, s.scenery_type with
  | some (.str sp), some st =>
    if sp ≠ "" then
      .ok (if st.any (fun t => jsIncludes (lowerStr sp) (lowerStr t))
          then 2 else 0)
    else .ok 0
  | some (.list _), some [] => .ok 0
  | some (.list _), some (_ :: _) => .error ()
  | _, _ => .ok 0

/-- Budget signal of the post-onboarding variant: `+1` when the spot's
budget level is, case-insensitively, a substring of the budget choice. -/
def postBudgetScore (p : UserPreferences) (s : TouristSpot) : Score :=
  match p.budgetRange, s.budget_level with
  | some b, some lvl =>
    if b ≠ "" ∧ lvl ≠ "" then
      if jsIncludes (lowerStr b) (lowerStr lvl) then 1 else 0
    else 0
  | _, _ => 0

/-- Place-preference signal of the post-onboarding variant. -/
def postPlaceScore (p : UserPreferences) (s : TouristSpot) : Score :=
  match p.placePreference with
  | some pp =>
    if pp ≠ "" then
      (if pp = "Hidden Gems" ∧ boolTruthy s.is_hidden_gem then 2 else 0)
      + (if pp = "Popular Tourist Spots" ∧ ¬ boolTruthy s.is_hidden_gem
        then 2 else 0)
      + (if pp = "Both" then 1 else 0)
    else 0
  | none => 0

/-- Accessibility signal of the post-onboarding variant: `+2`. -/
def postAccessibilityScore (p : UserPreferences) (s : TouristSpot) : Score :=
  if boolTruthy p.accessibilityNeeded ∧ boolTruthy s.accessibility_friendly
  then 2 else 0

/-- The per-spot score of the post-onboarding recommender. -/
def postScoreSpot (p : UserPreferences) (s : TouristSpot) : Except Unit Score :=
  match postSceneryScore p s with
  | .error e => .error e
  | .ok scenery =>
    .ok (postDistrictScore p s + postActivitiesScore p s + scenery
      + postBudgetScore p s + postPlaceScore p s + postAccessibilityScore p s)

/-- Score every fetched spot (the `(data || []).map` step). -/
def postScoreSpots (p : UserPreferences) (spots : List TouristSpot) :
    Except Unit (List (TouristSpot × Score)) :=
  scoreAll (postScoreSpot p) spots

/-- The post-onboarding sort-truncate step: stable sort descending by score
and keep the top `12` (no zero-score filtering in this variant). -/
def postSortTruncate (scored : List (TouristSpot × Score)) :
    List (TouristSpot × Score) :=
  (scored.insertionSort byScoreDesc).take 12

/-- The full post-onboarding spot recommender. -/
def fetchRecommendedSpots (p : UserPreferences) (spots : List TouristSpot) :
    Except Unit (List (TouristSpot × Score)) :=
  Except.map postSortTruncate (postScoreSpots p spots)

/-! ## Post-onboarding accommodation scorer (`fetchRecommendedAccommodations`) -/

/-- District signal of the accommodation variant: `+3` when the district
NAME occurs, case-sensitively, in the location or municipality string. -/
def accDistrictScore (p : UserPreferences) (a : Accommodation) : Score :=
  match p.albayDistrict with
  | some d =>
    if d ≠ "" ∧ d ≠ "Any District" then
      if (match a.location with
          | some loc => jsIncludes loc d
          | none => false)
        || (match a.municipality with
          | some m => jsIncludes m d
          | none => false) then 3 else 0
    else 0
  | none => 0

/-- The accommodation variant's budget table: each choice maps to a list of
price-range markers, matched by substring against `price_range`. -/
def accBudgetMap (b : String) : List String :=
  if b = "Budget-friendly" then ["Budget", "₱"]
  else if b = "Moderate" then ["Mid-range", "₱₱", "Moderate"]
  else if b = "Premium" then ["Luxury", "₱₱₱", "Premium"]
  else []

/-- Budget signal of the accommodation variant: `+3` when some marker of
the mapped list occurs in the accommodation's price range. -/
def accBudgetScore (p : UserPreferences) (a : Accommodation) : Score :=
  match p.budgetRange, a.price_range with
  | some b, some pr =>
    if b ≠ "" ∧ pr ≠ "" then
      if (accBudgetMap b).any (fun r => jsIncludes pr r) then 3 else 0
    else 0
  | _, _ => 0

/-- Traveler-type signal of the accommodation variant: keyword rules over
the joined, lowercased category list at `+2` each. -/
def accTravelerScore (p : UserPreferences) (a : Accommodation) : Score :=
  match p.travelerType, a.category with
  | some t, some cat =>
    if t ≠ "" then
      (if jsIncludes t "Relaxed" ∧
          jsIncludes (lowerStr (joinSpace cat)) "resort" then 2 else 0)
      + (if jsIncludes t "Adventure" ∧
          jsIncludes (lowerStr (joinSpace cat)) "hostel" then 2 else 0)
      + (if jsIncludes t "Family" ∧
          jsIncludes (lowerStr (joinSpace cat)) "hotel" then 2 else 0)
    else 0
  | _, _ => 0

/-- Travel-companions signal of the accommodation variant. -/
def accCompanionScore (p : UserPreferences) (a : Accommodation) : Score :=
  match p.travelCompanions, a.amenities with
  | some tc, some am =>
    if tc ≠ "" then
      (if tc = "Family" ∧ jsIncludes (lowerStr (joinSpace am)) "family"
        then 2 else 0)
      + (if tc = "Couple" ∧ jsIncludes (lowerStr (joinSpace am)) "romantic"
        then 1 else 0)
    else 0
  | _, _ => 0

/-- Rating boost of the accommodation variant: `+1` above `4` and another
`+1` above `4.5` (a missing rating compares false). -/
def accRatingScore (a : Accommodation) : Score :=
  match a.rating with
  | some r =>
    (if Score.vlt 4 r then 1 else 0) + (if Score.vlt ⟨9, 1⟩ r then 1 else 0)
  | none => 0

/-- The per-accommodation score. -/
def accScore (p : UserPreferences) (a : Accommodation) : Score :=
  accDistrictScore p a + accBudgetScore p a + accTravelerScore p a
    + accCompanionScore p a + accRatingScore a

/-- The full accommodation recommender: score, stable sort descending,
keep the top `10`.  No preference field of this variant can throw. -/
def fetchRecommendedAccommodations (p : UserPreferences)
    (accs : List Accommodation) : List (Accommodation × Score) :=
  ((accs.map (fun a => (a, accScore p a))).insertionSort byScoreDesc).take 10

/-! ## CSV bulk importer (`BulkImport.tsx`) -/

/-- A parsed CSV cell: `null`, a literal string, or a JSON string array. -/
inductive CsvVal where
  | nullV
  | strV (s : String)
  | arrV (l : List String)
deriving DecidableEq

/-- JSON whitespace. -/
def isJsonWs (c : Char) : Bool := c == ' ' || c == '\t' || c == '\n' || c == '\r'

/-- Drop leading JSON whitespace. -/
def skipWs (cs : List Char) : List Char := cs.dropWhile isJsonWs

/-- Parse the body of a JSON string literal (after the opening quote),
returning the decoded characters and the remaining input.  Handles the
`\"` and `\\` escapes; other escapes (absent from this application's CSV
payloads) fail the parse, which the importer treats as "keep the literal
string". -/
def jsonStringBody : List Char → Option (List Char × List Char)
  | [] => none
  | '"' :: rest => some ([], rest)
  | '\\' :: '"' :: rest => (jsonStringBody rest).map (fun p => ('"' :: p.1, p.2))
  | '\\' :: '\\' :: rest => (jsonStringBody rest).map (fun p => ('\\' :: p.1, p.2))
  | '\\' :: _ => none
  | c :: rest => (jsonStringBody rest).map (fun p => (c :: p.1, p.2))

/-- Parse the rest of a JSON string array after one element: a `,`-separated
sequence of string literals closed by `]`.  Fuelled by the input length. -/
def jsonArrayRest : Nat → List Char → Option (List String × List Char)
  | 0, _ => none
  | fuel + 1, cs =>
    match skipWs cs with
    | ']' :: rest => some ([], rest)
    | ',' :: rest =>
      match skipWs rest with
      | '"' :: rest2 =>
        match jsonStringBody rest2 with
        | some (s, rest3) =>
          match jsonArrayRest fuel rest3 with
          | some (ss, rest4) => some (String.mk s :: ss, rest4)
          | none => none
        | none => none
      | _ => none
    | _ => none

/-- `JSON.parse` restricted to arrays of strings, the shape the importer
documents for array-valued CSV fields (`["item1","item2"]`).  Any other
JSON shape fails, which the importer's `catch` turns into "keep the
literal string". -/
def parseJsonStrArray (v : String) : Option (List String) :=
  match skipWs v.data with
  | '[' :: rest =>
    match skipWs rest with
    | ']' :: rest2 => if skipWs rest2 = [] then some [] else none
    | '"' :: rest2 =>
      match jsonStringBody rest2 with
      | some (s, rest3) =>
        match jsonArrayRest rest3.length rest3 with
        | some (ss, rest4) =>
          if skipWs rest4 = [] then some (String.mk s :: ss) else none
        | none => none
      | none => none
    | _ => none
  | _ => none

/-- The per-cell logic of `parseCSV`: take the `index`-th raw value, trim
it (a missing or all-blank value becomes `null` via `|| null`), attempt
JSON-array parsing of bracketed values, and coerce `""`/`"\x22\x22"` to
`null`. -/
def rowValue (values : List String) (index : Nat) : CsvVal :=
  match values.get? index with
  | none => .nullV
  | some v =>
    let t := trimStr v
    if t = "" then .nullV
    else if startsWithStr t "[" ∧ endsWithStr t "]" then
      match parseJsonStrArray t with
      | some arr => .arrV arr
      | none => if t = "\"\"" then .nullV else .strV t
    else if t = "\"\"" then .nullV else .strV t

/-- JavaScript object-key assignment `obj[k] = v`: overwrite in place if the
key exists, append otherwise. -/
def setKey (obj : List (String × CsvVal)) (k : String) (v : CsvVal) :
    List (String × CsvVal) :=
  if obj.any (fun kv => decide (kv.1 = k)) then
    obj.map (fun kv => if kv.1 = k then (k, v) else kv)
  else obj ++ [(k, v)]

/-- Build one record: `headers.forEach((header, index) => obj[header] = ...)`. -/
def buildRow (headers : List String) (values : List String) :
    List (String × CsvVal) :=
  headers.enum.foldl (fun obj p => setKey obj p.2 (rowValue values p.1)) []

/-- `parseCSV`: trim the blob, split into lines, require a header line plus
at least one data row, split each on `;`, and build field-keyed records. -/
def parseCSV (text : String) : List (List (String × CsvVal)) :=
  let lines := splitStr '\n' (trimStr text)
  if lines.length < 2 then []
  else
    match lines with
    | [] => []
    | headerLine :: dataLines =>
      let headers := (splitStr ';' headerLine).map trimStr
      dataLines.map (fun line => buildRow headers (splitStr ';' line))

/-- The batched-insert loop of `handleFileUpload`: batches of 50, each
insert succeeding or failing as a whole (`insertOk` abstracts the storage
response for the `k`-th batch), failures counted and skipped, successes
counted and appended to the stored table.  Returns
`(successCount, errorCount, rows persisted)`. -/
def importBatches {α : Type} (insertOk : Nat → Bool) (k : Nat) (data : List α) :
    Nat × Nat × List α :=
  match data with
  | [] => (0, 0, [])
  | d :: rest =>
    let batch := (d :: rest).take 50
    let p := importBatches insertOk (k + 1) ((d :: rest).drop 50)
    if insertOk k then (p.1 + batch.length, p.2.1, batch ++ p.2.2)
    else (p.1, p.2.1 + batch.length, p.2.2)
termination_by data.length
decreasing_by
  rw [List.length_drop]
  simp
  omega

/-! ## Add-to-itinerary (`AddToItineraryDialog` and `MyItinerary.tsx`) -/

/-- The denormalized snapshot stored in an itinerary's `spots` array. -/
structure ItineraryItem where
  id : String := ""
  name : String := ""
  itemType : String := ""
  addedAt : String := ""
deriving DecidableEq

/-- A stored itinerary row. -/
structure Itinerary where
  id : String := ""
  name : String := ""
  spots : List ItineraryItem := []
deriving DecidableEq

/-- The `.select("spots").eq("id", itineraryId).single()` fetch: succeeds
exactly when one stored row has the id. -/
def fetchSingleItinerary (store : List Itinerary) (itineraryId : String) :
    Option Itinerary :=
  match store.filter (fun it => decide (it.id = itineraryId)) with
  | [it] => some it
  | _ => none

/-- Outcome of an add-to-itinerary attempt. -/
inductive AddOutcome where
  | fetchError
  | duplicate
  | added
deriving DecidableEq

/-- `handleAddToItinerary` of `AddToItineraryDialog`: fetch the chosen
itinerary, reject when the item id is already present (no update issued),
otherwise update every row with that id to the fetched spots plus the new
item appended.  Returns the resulting store and the outcome. -/
def handleAddToItinerary (store : List Itinerary) (itineraryId : String)
    (item : ItineraryItem) : List Itinerary × AddOutcome :=
  match fetchSingleItinerary store itineraryId with
  | none => (store, .fetchError)
  | some it =>
    if it.spots.any (fun s => decide (s.id = item.id)) then (store, .duplicate)
    else
      (store.map (fun j =>
        if j.id = itineraryId then { j with spots := it.spots ++ [item] } else j),
       .added)

/-- The duplicate-check-then-append step of `MyItinerary.tsx`'s
`handleAddToItinerary` (add to the most recent itinerary): `none` embeds
the rejected attempt, in which no update is issued. -/
def myItineraryAddSpot (currentSpots : List ItineraryItem)
    (spot : ItineraryItem) : Option (List ItineraryItem) :=
  if currentSpots.any (fun s => decide (s.id = spot.id)) then none
  else some (currentSpots ++ [spot])

/-! ## Concrete sample inputs (used by counterexamples and witnesses) -/

/-- Preferences as written by the array-shaped onboarding wizard variant:
the scenery preference is a list of strings. -/
def listSceneryPrefs : UserPreferences :=
  { sceneryPreference := some (.list ["Mountain"]),
    autoRecommendations := some true }

/-- Preferences with a string-shaped scenery preference. -/
def strSceneryPrefs : UserPreferences :=
  { sceneryPreference := some (.str "Mountain"),
    autoRecommendations := some true }

/-- A spot with a non-empty scenery tag list. -/
def mountainSpot : TouristSpot :=
  { id := "s1", name := "Mayon", scenery_type := some ["Mountain"] }

/-- Preferences selecting District 1. -/
def district1Prefs : UserPreferences := { albayDistrict := some "District 1" }

/-- A spot in Tabaco (a District 1 municipality). -/
def tabacoSpot : TouristSpot :=
  { id := "t1", name := "Vera Falls", municipality := some "Tabaco",
    location := some "Tabaco City" }

/-- The same spot with the stored municipality casing altered. -/
def tabacoSpotUpper : TouristSpot :=
  { id := "t1", name := "Vera Falls", municipality := some "TABACO",
    location := some "Tabaco City" }

/-- Preferences giving every spot the flat `+1` "Both" place score. -/
def bothPrefs : UserPreferences :=
  { placePreference := some "Both", autoRecommendations := some true }

/-- Two featureless spots (they tie on every score). -/
def spotA : TouristSpot := { id := "a", name := "A" }

/-- Second featureless spot. -/
def spotB : TouristSpot := { id := "b", name := "B" }

/-- Preferences choosing the "Moderate" budget bucket. -/
def moderatePrefs : UserPreferences := { budgetRange := some "Moderate" }

/-- An accommodation whose price range is the premium marker `₱₱₱`. -/
def pricePPPAcc : Accommodation :=
  { id := "a1", name := "Premium Suites", price_range := some "₱₱₱" }

/-- A spot whose budget level is `moderate`. -/
def moderateSpot : TouristSpot :=
  { id := "m1", name := "Cagsawa Ruins", budget_level := some "moderate" }

/-- An itinerary snapshot item. -/
def tripItem : ItineraryItem :=
  { id := "x1", name := "Mayon Volcano", itemType := "spot" }

/-- A store with one empty itinerary. -/
def tripStore : List Itinerary :=
  [{ id := "i1", name := "My Travel Itinerary", spots := [] }]

/-- The store after `tripItem` is added to itinerary `i1`. -/
def tripStoreAfter : List Itinerary :=
  [{ id := "i1", name := "My Travel Itinerary",
     spots := [{ id := "x1", name := "Mayon Volcano", itemType := "spot" }] }]

/-! ## Helper lemmas -/

/-- A preference record whose scenery field is not array-shaped. -/
def sceneryNotList (p : UserPreferences) : Prop :=
  ∀ l, p.sceneryPreference ≠ some (.list l)

theorem pfSceneryScore_ok {p : UserPreferences} (s : TouristSpot)
    (h : sceneryNotList p) : ∃ q, pfSceneryScore p s = .ok q := by
  cases hv : p.sceneryPreference with
  | none => rw [pfSceneryScore, hv]; cases s.scenery_type <;> exact ⟨0, rfl⟩
  | some sl =>
    cases sl with
    | list l => exact absurd hv (h l)
    | str sp =>
      cases hst : s.scenery_type with
      | none => exact ⟨0, by simp only [pfSceneryScore, hv, hst]⟩
      | some st =>
        cases st <;> simp only [pfSceneryScore, hv, hst] <;>
          split_ifs <;> exact ⟨_, rfl⟩

theorem postSceneryScore_ok {p : UserPreferences} (s : TouristSpot)
    (h : sceneryNotList p) : ∃ q, postSceneryScore p s = .ok q := by
  cases hv : p.sceneryPreference with
  | none => rw [postSceneryScore, hv]; cases s.scenery_type <;> exact ⟨0, rfl⟩
  | some sl =>
    cases sl with
    | list l => exact absurd hv (h l)
    | str sp =>
      cases hst : s.scenery_type with
      | none => exact ⟨0, by simp only [postSceneryScore, hv, hst]⟩
      | some st =>
        cases st <;> simp only [postSceneryScore, hv, hst] <;>
          split_ifs <;> exact ⟨_, rfl⟩

theorem pfScoreSpot_ok {p : UserPreferences} (s : TouristSpot)
    (h : sceneryNotList p) : ∃ q, pfScoreSpot p s = .ok q := by
  obtain ⟨q, hq⟩ := pfSceneryScore_ok s h
  exact ⟨_, by rw [pfScoreSpot, hq]⟩

theorem postScoreSpot_ok {p : UserPreferences} (s : TouristSpot)
    (h : sceneryNotList p) : ∃ q, postScoreSpot p s = .ok q := by
  obtain ⟨q, hq⟩ := postSceneryScore_ok s h
  exact ⟨_, by rw [postScoreSpot, hq]⟩

theorem scoreAll_ok {score : TouristSpot → Except Unit Score}
    (h : ∀ s, ∃ q, score s = .ok q) :
    ∀ l : List TouristSpot, ∃ out, scoreAll score l = .ok out := by
  intro l
  induction l with
  | nil => exact ⟨[], rfl⟩
  | cons s rest ih =>
    obtain ⟨q, hq⟩ := h s
    obtain ⟨out, hout⟩ := ih
    exact ⟨(s, q) :: out, by rw [scoreAll, hq, hout]⟩

theorem scoreAll_map_fst {score : TouristSpot → Except Unit Score} :
    ∀ {l : List TouristSpot} {out : List (TouristSpot × Score)},
      scoreAll score l = .ok out → out.map Prod.fst = l := by
  intro l
  induction l with
  | nil => intro out h; rw [scoreAll] at h; cases h; rfl
  | cons s rest ih =>
    intro out h
    rw [scoreAll] at h
    cases hq : score s with
    | error e => rw [hq] at h; simp at h
    | ok q =>
      cases ht : scoreAll score rest with
      | error e => rw [hq, ht] at h; simp at h
      | ok tail =>
        rw [hq, ht] at h
        cases h
        simp [ih ht]

/-- Stability of `orderedInsert` under the descending-score relation: the
elements with any one given score value are preserved in order. -/
theorem filter_orderedInsert (q : Score) (a : TouristSpot × Score) :
    ∀ l : List (TouristSpot × Score),
      (List.orderedInsert byScoreDesc a l).filter
          (fun x => decide (Score.veq x.2 q)) =
        if Score.veq a.2 q then
          a :: l.filter (fun x => decide (Score.veq x.2 q))
        else l.filter (fun x => decide (Score.veq x.2 q)) := by
  intro l
  induction l with
  | nil =>
    rw [List.orderedInsert]
    by_cases hq : Score.veq a.2 q <;> simp [List.filter, hq]
  | cons b l ih =>
    rw [List.orderedInsert]
    by_cases hr : byScoreDesc a b
    · rw [if_pos hr]
      by_cases hq : Score.veq a.2 q <;> simp [List.filter_cons, hq]
    · rw [if_neg hr]
      have hab : Score.vlt a.2 b.2 := Score.vlt_of_not_vle hr
      by_cases hq : Score.veq a.2 q
      · have hbq : ¬ Score.veq b.2 q := Score.veq_trans_ne hab hq
        simp [List.filter_cons, hbq, ih, hq]
      · simp [List.filter_cons, ih, hq]

/-- Stability of the stable descending sort: filtering the sorted list to
the entries of any one score value returns exactly the same subsequence as
filtering the input. -/
theorem filter_insertionSort (q : Score) :
    ∀ l : List (TouristSpot × Score),
      (l.insertionSort byScoreDesc).filter (fun x => decide (Score.veq x.2 q)) =
        l.filter (fun x => decide (Score.veq x.2 q)) := by
  intro l
  induction l with
  | nil => rfl
  | cons x l ih =>
    rw [List.insertionSort, filter_orderedInsert]
    by_cases hq : Score.veq x.2 q <;> simp [List.filter_cons, hq, ih]

theorem importBatches_nil {α : Type} (f : Nat → Bool) (k : Nat) :
    importBatches f k ([] : List α) = (0, 0, []) := by
  rw [importBatches]

theorem importBatches_cons {α : Type} (f : Nat → Bool) (k : Nat) (d : α)
    (rest : List α) :
    importBatches f k (d :: rest) =
      (let batch := (d :: rest).take 50
       let p := importBatches f (k + 1) ((d :: rest).drop 50)
       if f k then (p.1 + batch.length, p.2.1, batch ++ p.2.2)
       else (p.1, p.2.1 + batch.length, p.2.2)) := by
  rw [importBatches]

theorem score_zero_add {a : Score} : (0 : Score) + a = ⟨a.num, a.pden⟩ := by
  show Score.add ⟨0, 0⟩ a = ⟨a.num, a.pden⟩
  unfold Score.add Score.den
  simp

theorem pfDistrictScore_none {p : UserPreferences} (s : TouristSpot)
    (h : p.albayDistrict = none) : pfDistrictScore p s = 0 := by
  cases hm : s.municipality <;> simp [pfDistrictScore, h, hm]

theorem postDistrictScore_none {p : UserPreferences} (s : TouristSpot)
    (h : p.albayDistrict = none) : postDistrictScore p s = 0 := by
  simp [postDistrictScore, h]

theorem accDistrictScore_none {p : UserPreferences} (a : Accommodation)
    (h : p.albayDistrict = none) : accDistrictScore p a = 0 := by
  simp [accDistrictScore, h]

theorem pfTravelerScore_none {p : UserPreferences} (s : TouristSpot)
    (h : p.travelerType = none) : pfTravelerScore p s = 0 := by
  cases hc : s.category <;> simp [pfTravelerScore, h, hc]

theorem accTravelerScore_none {p : UserPreferences} (a : Accommodation)
    (h : p.travelerType = none) : accTravelerScore p a = 0 := by
  cases hc : a.category <;> simp [accTravelerScore, h, hc]

theorem pfActivitiesScore_none {p : UserPreferences} (s : TouristSpot)
    (h : p.activities = none) : pfActivitiesScore p s = 0 := by
  cases hc : s.category <;> simp [pfActivitiesScore, h, hc]

theorem postActivitiesScore_none {p : UserPreferences} (s : TouristSpot)
    (h : p.activities = none) : postActivitiesScore p s = 0 := by
  cases hc : s.category <;> simp [postActivitiesScore, h, hc]

theorem pfBudgetScore_none {p : UserPreferences} (s : TouristSpot)
    (h : p.budgetRange = none) : pfBudgetScore p s = 0 := by
  simp [pfBudgetScore, h]

theorem postBudgetScore_none {p : UserPreferences} (s : TouristSpot)
    (h : p.budgetRange = none) : postBudgetScore p s = 0 := by
  cases hb : s.budget_level <;> simp [postBudgetScore, h, hb]

theorem accBudgetScore_none {p : UserPreferences} (a : Accommodation)
    (h : p.budgetRange = none) : accBudgetScore p a = 0 := by
  cases hb : a.price_range <;> simp [accBudgetScore, h, hb]

theorem pfPlaceScore_none {p : UserPreferences} (s : TouristSpot)
    (h : p.placePreference = none) : pfPlaceScore p s = 0 := by
  rw [pfPlaceScore, h]
  norm_num
  rfl

theorem postPlaceScore_none {p : UserPreferences} (s : TouristSpot)
    (h : p.placePreference = none) : postPlaceScore p s = 0 := by
  simp [postPlaceScore, h]

theorem pfAccessibilityScore_none {p : UserPreferences} (s : TouristSpot)
    (h : p.accessibilityNeeded = none) : pfAccessibilityScore p s = 0 := by
  simp [pfAccessibilityScore, h, boolTruthy]

theorem postAccessibilityScore_none {p : UserPreferences} (s : TouristSpot)
    (h : p.accessibilityNeeded = none) : postAccessibilityScore p s = 0 := by
  simp [postAccessibilityScore, h, boolTruthy]

theorem pfSceneryScore_none {p : UserPreferences} (s : TouristSpot)
    (h : p.sceneryPreference = none) : pfSceneryScore p s = .ok 0 := by
  rw [pfSceneryScore, h]

theorem postSceneryScore_none {p : UserPreferences} (s : TouristSpot)
    (h : p.sceneryPreference = none) : postSceneryScore p s = .ok 0 := by
  rw [postSceneryScore, h]

theorem accCompanionScore_none {p : UserPreferences} (a : Accommodation)
    (h : p.travelCompanions = none) : accCompanionScore p a = 0 := by
  cases hc : a.amenities <;> simp [accCompanionScore, h, hc]

/-- Unfolding the import loop on a non-empty remainder. -/
theorem importBatches_ne_nil {α : Type} (f : Nat → Bool) (k : Nat)
    {data : List α} (h : data ≠ []) :
    importBatches f k data =
      (if f k then
        ((importBatches f (k + 1) (data.drop 50)).1 + (data.take 50).length,
         (importBatches f (k + 1) (data.drop 50)).2.1,
         data.take 50 ++ (importBatches f (k + 1) (data.drop 50)).2.2)
      else
        ((importBatches f (k + 1) (data.drop 50)).1,
         (importBatches f (k + 1) (data.drop 50)).2.1 + (data.take 50).length,
         (importBatches f (k + 1) (data.drop 50)).2.2)) := by
  obtain ⟨d, r, rfl⟩ := List.exists_cons_of_ne_nil h
  rw [importBatches_cons]

/-- Inverting a successful `.single()` fetch: the id filter found exactly
the returned row. -/
theorem fetchSingle_filter {store : List Itinerary} {I : String} {it : Itinerary}
    (h : fetchSingleItinerary store I = some it) :
    store.filter (fun j => decide (j.id = I)) = [it] := by
  rw [fetchSingleItinerary] at h
  rcases hf : store.filter (fun j => decide (j.id = I)) with _ | ⟨a, _ | ⟨b, l⟩⟩ <;>
    rw [hf] at h
  · simp at h
  · simp at h; rw [hf, h]
  · simp at h

/-- The row returned by a successful `.single()` fetch carries the id. -/
theorem fetchSingle_id {store : List Itinerary} {I : String} {it : Itinerary}
    (h : fetchSingleItinerary store I = some it) : it.id = I := by
  have hf := fetchSingle_filter h
  have hm : it ∈ store.filter (fun j => decide (j.id = I)) := by
    rw [hf]; exact List.mem_singleton.mpr rfl
  exact of_decide_eq_true (List.mem_filter.mp hm).2

/-- Mapping an id-preserving update through the store commutes with the
id filter of the single-row fetch. -/
theorem filter_map_preserves_id {g : Itinerary → Itinerary}
    (hg : ∀ j, (g j).id = j.id) (I : String) :
    ∀ l : List Itinerary,
      (l.map g).filter (fun it => decide (it.id = I)) =
        (l.filter (fun it => decide (it.id = I))).map g := by
  intro l
  induction l with
  | nil => rfl
  | cons j l ih =>
    by_cases hj : j.id = I <;> simp [List.filter_cons, hg, hj, ih]

/-! ## The claims -/

/-- C1 (counterexample).  The claim says every recommendation-scorer
variant computes its result without throwing even when the scenery
preference is stored as a list of strings.  In fact, for the preference
record the array-shaped onboarding wizard writes
(`sceneryPreference = ["Mountain"]`) and a single spot carrying a
non-empty scenery tag list, both spot scorers throw a `TypeError`
(`toLowerCase` is not a function of an array), embedded here as
`Except.error ()`. -/
theorem claim_C1_counterexample :
    fetchRecommendedSpots listSceneryPrefs [mountainSpot] = .error () ∧
    fetchPersonalizedSpots listSceneryPrefs [mountainSpot] = .error () := by
  decide

/-- C1 (amended).  Every scorer variant computes its result without
throwing provided the scenery preference is absent or a single string
(the accommodation scorer never throws and is total by construction);
every signal whose preference field is absent contributes zero to the
score; and an empty entity collection yields an empty result. -/
theorem claim_C1_amended :
    (∀ (p : UserPreferences) (spots : List TouristSpot), sceneryNotList p →
      (∃ out, fetchPersonalizedSpots p spots = .ok out) ∧
      (∃ out, fetchRecommendedSpots p spots = .ok out))
    ∧ (∀ p : UserPreferences,
        fetchPersonalizedSpots p [] = .ok [] ∧
        fetchRecommendedSpots p [] = .ok [] ∧
        fetchRecommendedAccommodations p [] = [])
    ∧ (∀ (p : UserPreferences) (s : TouristSpot) (a : Accommodation),
        (p.albayDistrict = none → pfDistrictScore p s = 0 ∧
          postDistrictScore p s = 0 ∧ accDistrictScore p a = 0)
        ∧ (p.travelerType = none → pfTravelerScore p s = 0 ∧
          accTravelerScore p a = 0)
        ∧ (p.activities = none → pfActivitiesScore p s = 0 ∧
          postActivitiesScore p s = 0)
        ∧ (p.budgetRange = none → pfBudgetScore p s = 0 ∧
          postBudgetScore p s = 0 ∧ accBudgetScore p a = 0)
        ∧ (p.placePreference = none → pfPlaceScore p s = 0 ∧
          postPlaceScore p s = 0)
        ∧ (p.accessibilityNeeded = none → pfAccessibilityScore p s = 0 ∧
          postAccessibilityScore p s = 0)
        ∧ (p.sceneryPreference = none → pfSceneryScore p s = .ok 0 ∧
          postSceneryScore p s = .ok 0)
        ∧ (p.travelCompanions = none → accCompanionScore p a = 0)) := by
  refine ⟨?_, ?_, ?_⟩
  · intro p spots h
    obtain ⟨out1, hout1⟩ := scoreAll_ok (fun s => pfScoreSpot_ok s h) spots
    obtain ⟨out2, hout2⟩ := scoreAll_ok (fun s => postScoreSpot_ok s h) spots
    constructor
    · cases hg : boolTruthy p.autoRecommendations with
      | false => exact ⟨[], by rw [fetchPersonalizedSpots, hg]; rfl⟩
      | true =>
        exact ⟨pfSortTruncate out1,
          by rw [fetchPersonalizedSpots, hg, pfScoreSpots, hout1]; rfl⟩
    · exact ⟨postSortTruncate out2,
        by rw [fetchRecommendedSpots, postScoreSpots, hout2]; rfl⟩
  · intro p
    refine ⟨?_, rfl, rfl⟩
    cases hg : boolTruthy p.autoRecommendations with
    | false => rw [fetchPersonalizedSpots, hg]; rfl
    | true => rw [fetchPersonalizedSpots, hg]; rfl
  · intro p s a
    exact ⟨fun h => ⟨pfDistrictScore_none s h, postDistrictScore_none s h,
        accDistrictScore_none a h⟩,
      fun h => ⟨pfTravelerScore_none s h, accTravelerScore_none a h⟩,
      fun h => ⟨pfActivitiesScore_none s h, postActivitiesScore_none s h⟩,
      fun h => ⟨pfBudgetScore_none s h, postBudgetScore_none s h,
        accBudgetScore_none a h⟩,
      fun h => ⟨pfPlaceScore_none s h, postPlaceScore_none s h⟩,
      fun h => ⟨pfAccessibilityScore_none s h, postAccessibilityScore_none s h⟩,
      fun h => ⟨pfSceneryScore_none s h, postSceneryScore_none s h⟩,
      fun h => accCompanionScore_none a h⟩

/-- C1 (witness).  The amended no-throw statement instantiated at a
string-shaped scenery preference and the mountain spot. -/
theorem claim_C1_witness :
    ∃ out, fetchPersonalizedSpots strSceneryPrefs [mountainSpot] = .ok out :=
  ((claim_C1_amended.1 strSceneryPrefs [mountainSpot]
    (fun l h => by simp [strSceneryPrefs] at h)).1)

/-- C2 (counterexample).  The claim says EVERY scorer variant assigns a
strictly positive district component to an entity whose municipality
matches the selected district's lookup list.  The spot `tabacoSpot` has
municipality `"Tabaco"`, which matches District 1's lookup list, yet the
post-onboarding variant's district component is `0`, because that variant
instead tests, case-sensitively, whether the literal district name occurs
in the location string. -/
theorem claim_C2_counterexample :
    district1Prefs.albayDistrict = some "District 1"
    ∧ tabacoSpot.municipality = some "Tabaco"
    ∧ (pfDistrictMunicipalities "District 1").any
        (fun mu => jsIncludes (lowerStr "Tabaco") (lowerStr mu)) = true
    ∧ postDistrictScore district1Prefs tabacoSpot = 0 := by
  decide

/-- C2 (amended).  Restricted to the homepage-feed variant: for an entity
whose (non-empty) municipality contains, case-insensitively, a
municipality of the selected district's lookup list, the district
component is strictly positive, and it is unchanged when the casing of
the stored municipality string is altered.  (The post-onboarding spot and
accommodation variants instead match the district name case-sensitively
against the location/municipality string and can give zero for such an
entity, as the counterexample shows.) -/
theorem claim_C2_amended :
    ∀ (p : UserPreferences) (s s' : TouristSpot) (d m m' : String),
      p.albayDistrict = some d →
      s.municipality = some m → m ≠ "" →
      (∃ mu ∈ pfDistrictMunicipalities d,
        jsIncludes (lowerStr m) (lowerStr mu) = true) →
      Score.vlt 0 (pfDistrictScore p s)
      ∧ (s'.municipality = some m' → m' ≠ "" → lowerStr m' = lowerStr m →
          pfDistrictScore p s' = pfDistrictScore p s) := by
  intro p s s' d m m' hpd hsm hm hmu
  obtain ⟨mu, hmu1, hmu2⟩ := hmu
  have hd : d ≠ "" ∧ d ≠ "Any District" := by
    by_cases h1 : d = "District 1"
    · subst h1; exact ⟨by decide, by decide⟩
    by_cases h2 : d = "District 2"
    · subst h2; exact ⟨by decide, by decide⟩
    by_cases h3 : d = "District 3"
    · subst h3; exact ⟨by decide, by decide⟩
    exfalso
    rw [pfDistrictMunicipalities] at hmu1
    simp [h1, h2, h3] at hmu1
  have hscore : pfDistrictScore p s = 5 := by
    simp only [pfDistrictScore, hpd, hsm]
    rw [if_pos ⟨hd.1, hd.2, hm⟩,
      if_pos (List.any_eq_true.mpr ⟨mu, hmu1, hmu2⟩)]
  constructor
  · rw [hscore]; decide
  · intro hs'm hm' hlow
    have hscore' : pfDistrictScore p s' = 5 := by
      simp only [pfDistrictScore, hpd, hs'm]
      rw [if_pos ⟨hd.1, hd.2, hm'⟩,
        if_pos (List.any_eq_true.mpr ⟨mu, hmu1, by rw [hlow]; exact hmu2⟩)]
    rw [hscore, hscore']

/-- C2 (witness).  The amended statement instantiated at District 1 and
the Tabaco spot, in its original and upper-cased stored forms. -/
theorem claim_C2_witness :
    Score.vlt 0 (pfDistrictScore district1Prefs tabacoSpot)
    ∧ pfDistrictScore district1Prefs tabacoSpotUpper =
        pfDistrictScore district1Prefs tabacoSpot :=
  have h := claim_C2_amended district1Prefs tabacoSpot tabacoSpotUpper
    "District 1" "Tabaco" "TABACO" rfl rfl (by decide)
    ⟨"Tabaco", by decide, by decide⟩
  ⟨h.1, h.2 rfl (by decide) (by decide)⟩

/-- C3.  The scorer's output ordering is stable: the scored rows are in
one-to-one order-preserving correspondence with the input collection
(`scored.map Prod.fst = spots`), and for every score value `q`, the
entries of the sorted, truncated output carrying value `q` form a
subsequence (`List.Sublist`) of the input's entries carrying value `q` —
so two entities with equal scores keep their relative input order
(first-seen wins), in both the homepage-feed and post-onboarding
variants. -/
theorem claim_C3_stable :
    ∀ (p : UserPreferences) (spots : List TouristSpot)
      (scored : List (TouristSpot × Score)),
      (pfScoreSpots p spots = .ok scored →
        scored.map Prod.fst = spots ∧
        ∀ q : Score,
          List.Sublist
            ((pfSortTruncate scored).filter (fun x => decide (Score.veq x.2 q)))
            (scored.filter (fun x => decide (Score.veq x.2 q))))
      ∧ (postScoreSpots p spots = .ok scored →
        scored.map Prod.fst = spots ∧
        ∀ q : Score,
          List.Sublist
            ((postSortTruncate scored).filter (fun x => decide (Score.veq x.2 q)))
            (scored.filter (fun x => decide (Score.veq x.2 q)))) := by
  intro p spots scored
  constructor
  · intro h
    rw [pfScoreSpots] at h
    refine ⟨scoreAll_map_fst h, ?_⟩
    intro q
    have t1 : List.Sublist
        ((((scored.filter (fun x => decide (Score.vlt 0 x.2))).insertionSort
          byScoreDesc).take 8).filter (fun x => decide (Score.veq x.2 q)))
        (((scored.filter (fun x => decide (Score.vlt 0 x.2))).insertionSort
          byScoreDesc).filter (fun x => decide (Score.veq x.2 q))) :=
      List.Sublist.filter _ (List.take_sublist 8 _)
    rw [filter_insertionSort] at t1
    have t3 : List.Sublist
        ((scored.filter (fun x => decide (Score.vlt 0 x.2))).filter
          (fun x => decide (Score.veq x.2 q)))
        (scored.filter (fun x => decide (Score.veq x.2 q))) :=
      List.Sublist.filter _ (List.filter_sublist scored)
    exact List.Sublist.trans t1 t3
  · intro h
    rw [postScoreSpots] at h
    refine ⟨scoreAll_map_fst h, ?_⟩
    intro q
    have t1 : List.Sublist
        (((scored.insertionSort byScoreDesc).take 12).filter
          (fun x => decide (Score.veq x.2 q)))
        ((scored.insertionSort byScoreDesc).filter
          (fun x => decide (Score.veq x.2 q))) :=
      List.Sublist.filter _ (List.take_sublist 12 _)
    rw [filter_insertionSort] at t1
    exact t1

/-- C3 (witness).  The stability statement instantiated at two spots that
tie with score `1` under the "Both" place preference. -/
theorem claim_C3_witness :
    List.Sublist
      ((pfSortTruncate [(spotA, 1), (spotB, 1)]).filter
        (fun x => decide (Score.veq x.2 1)))
      (([(spotA, (1 : Score)), (spotB, 1)]).filter
        (fun x => decide (Score.veq x.2 1))) :=
  (((claim_C3_stable bothPrefs [spotA, spotB] [(spotA, 1), (spotB, 1)]).1
    (by decide)).2) 1

/-- C4.  Truncation: the homepage feed returns at most 8 rows, and fewer
than 8 exactly when fewer than 8 rows carry a strictly positive score
(zero-score rows are filtered out before truncation); the post-onboarding
spot and accommodation variants return at most 12 resp. 10 rows, and
fewer exactly when the input collection itself is shorter — every element
qualifies there. -/
theorem claim_C4_truncation :
    ∀ (scored : List (TouristSpot × Score)) (p : UserPreferences)
      (accs : List Accommodation),
      ((pfSortTruncate scored).length ≤ 8
        ∧ ((pfSortTruncate scored).length < 8 ↔
          (scored.filter (fun x => decide (Score.vlt 0 x.2))).length < 8))
      ∧ ((postSortTruncate scored).length ≤ 12
        ∧ ((postSortTruncate scored).length < 12 ↔ scored.length < 12))
      ∧ ((fetchRecommendedAccommodations p accs).length ≤ 10
        ∧ ((fetchRecommendedAccommodations p accs).length < 10 ↔
          accs.length < 10)) := by
  intro scored p accs
  have h1 : (pfSortTruncate scored).length =
      min 8 (scored.filter (fun x => decide (Score.vlt 0 x.2))).length := by
    rw [pfSortTruncate, List.length_take, List.length_insertionSort]
  have h2 : (postSortTruncate scored).length = min 12 scored.length := by
    rw [postSortTruncate, List.length_take, List.length_insertionSort]
  have h3 : (fetchRecommendedAccommodations p accs).length =
      min 10 accs.length := by
    rw [fetchRecommendedAccommodations, List.length_take,
      List.length_insertionSort, List.length_map]
  refine ⟨⟨?_, ?_⟩, ⟨?_, ?_⟩, ⟨?_, ?_⟩⟩ <;> simp only [h1, h2, h3] <;> omega

/-- C5 (counterexample).  The claim says that under the "Moderate" budget
choice the budget delta goes exactly to entities whose budget/price field
matches the table's buckets for Moderate (`moderate` / `Mid-range`) and
to no other entity.  The accommodation with price range `₱₱₱` — the
premium marker, matching neither `moderate` nor `Mid-range` as a
substring in either direction or any casing — nevertheless receives the
`+3` budget delta, because the accommodation variant's table for Moderate
also contains the entry `"₱₱"`, which is a substring of `"₱₱₱"`. -/
theorem claim_C5_counterexample :
    moderatePrefs.budgetRange = some "Moderate"
    ∧ pricePPPAcc.price_range = some "₱₱₱"
    ∧ jsIncludes "₱₱₱" "moderate" = false
    ∧ jsIncludes "₱₱₱" "Mid-range" = false
    ∧ jsIncludes (lowerStr "₱₱₱") (lowerStr "moderate") = false
    ∧ jsIncludes (lowerStr "₱₱₱") (lowerStr "Mid-range") = false
    ∧ jsIncludes "moderate" "₱₱₱" = false
    ∧ jsIncludes "Mid-range" "₱₱₱" = false
    ∧ accBudgetScore moderatePrefs pricePPPAcc = 3 := by
  decide

/-- C5 (amended).  Under the "Moderate" budget choice: the homepage-feed
variant adds its `+2` delta exactly to spots whose budget level equals
`"moderate"`; the post-onboarding variant adds `+1` exactly to spots
whose non-empty budget level is, case-insensitively, a substring of
`"Moderate"`; and the accommodation variant adds `+3` exactly to
accommodations whose non-empty price range contains `"Mid-range"`,
`"₱₱"` (hence also the premium `"₱₱₱"`), or `"Moderate"`. -/
theorem claim_C5_amended :
    ∀ (p : UserPreferences) (s : TouristSpot) (a : Accommodation),
      p.budgetRange = some "Moderate" →
      (pfBudgetScore p s =
        if s.budget_level = some "moderate" then 2 else 0)
      ∧ (postBudgetScore p s =
        match s.budget_level with
        | some lvl =>
          if lvl ≠ "" ∧ jsIncludes (lowerStr "Moderate") (lowerStr lvl) = true
          then 1 else 0
        | none => 0)
      ∧ (accBudgetScore p a =
        match a.price_range with
        | some pr =>
          if pr ≠ "" ∧ (jsIncludes pr "Mid-range" ||
            (jsIncludes pr "₱₱" || jsIncludes pr "Moderate")) = true
          then 3 else 0
        | none => 0) := by
  intro p s a hb
  refine ⟨?_, ?_, ?_⟩
  · cases hl : s.budget_level with
    | none => simp [pfBudgetScore, hb, hl, pfBudgetMap]
    | some lvl =>
      simp only [pfBudgetScore, hb, hl]
      rw [if_pos ⟨by decide, by decide⟩]
      simp [pfBudgetMap]
  · cases hl : s.budget_level with
    | none => simp [postBudgetScore, hb, hl]
    | some lvl =>
      simp only [postBudgetScore, hb, hl]
      by_cases hle : lvl = ""
      · simp [hle]
      · rw [if_pos ⟨by decide, hle⟩]
        simp [hle]
  · cases hpr : a.price_range with
    | none => simp [accBudgetScore, hb, hpr]
    | some pr =>
      simp only [accBudgetScore, hb, hpr]
      by_cases hpe : pr = ""
      · simp [hpe]
      · rw [if_pos ⟨by decide, hpe⟩]
        simp [accBudgetMap, hpe, List.any_cons, List.any_nil]

/-- C5 (witness).  The amended homepage-feed characterization instantiated
at a spot whose budget level is `"moderate"`. -/
theorem claim_C5_witness :
    pfBudgetScore moderatePrefs moderateSpot =
      if moderateSpot.budget_level = some "moderate" then 2 else 0 :=
  (claim_C5_amended moderatePrefs moderateSpot pricePPPAcc rfl).1

/-- C6.  For the preference record in which every field is absent and any
entity whose optional fields are all absent, each scorer variant assigns
the total score `0`. -/
theorem claim_C6_all_absent_zero :
    ∀ (id name : String) (loc : Option String),
      pfScoreSpot emptyPrefs { id := id, name := name, location := loc } = .ok 0
      ∧ postScoreSpot emptyPrefs { id := id, name := name, location := loc } =
          .ok 0
      ∧ accScore emptyPrefs { id := id, name := name, location := loc } = 0 :=
  fun id name loc => ⟨rfl, rfl, rfl⟩

/-- C7.  Parsing the CSV text with header `name;category` and the single
data row `Spot A;["Nature","Adventure"]` yields exactly one record whose
`name` field is the string `"Spot A"` and whose `category` field is the
two-element array `["Nature", "Adventure"]` — an array value, not the
literal bracketed string. -/
theorem claim_C7_csv_roundtrip :
    parseCSV "name;category\nSpot A;[\"Nature\",\"Adventure\"]" =
      [[("name", CsvVal.strV "Spot A"),
        ("category", CsvVal.arrV ["Nature", "Adventure"])]] := by
  decide

/-- C8.  For a 120-record import with batch size 50 in which exactly one
50-record batch fails at insertion (batch 0 or batch 1) and the remaining
batches succeed, the loop continues past the failed batch, reports
`successCount = 70` and `errorCount = 50`, and the rows persisted are
exactly those of the successful batches, in order. -/
theorem claim_C8_batch_tolerance {α : Type} :
    ∀ data : List α, data.length = 120 →
      importBatches (fun j => decide (j ≠ 0)) 0 data = (70, 50, data.drop 50)
      ∧ importBatches (fun j => decide (j ≠ 1)) 0 data =
          (70, 50, data.take 50 ++ data.drop 100) := by
  intro data hlen
  have h0 : data ≠ [] := by
    intro h; rw [h] at hlen; simp at hlen
  have hl1 : (data.drop 50).length = 70 := by rw [List.length_drop, hlen]
  have h1 : data.drop 50 ≠ [] := by
    intro h; rw [h] at hl1; simp at hl1
  have hl2 : ((data.drop 50).drop 50).length = 20 := by
    rw [List.length_drop, hl1]
  have h2 : (data.drop 50).drop 50 ≠ [] := by
    intro h; rw [h] at hl2; simp at hl2
  have h3 : ((data.drop 50).drop 50).drop 50 = [] := by
    rw [← List.length_eq_zero, List.length_drop, hl2]
  have ht0 : (data.take 50).length = 50 := by
    rw [List.length_take]; omega
  have ht1 : ((data.drop 50).take 50).length = 50 := by
    rw [List.length_take]; omega
  have ht2 : ((data.drop 50).drop 50).take 50 = (data.drop 50).drop 50 :=
    List.take_of_length_le (by omega)
  have hdd : (data.drop 50).drop 50 = data.drop 100 := by
    rw [List.drop_drop]
  constructor
  · rw [importBatches_ne_nil _ _ h0, importBatches_ne_nil _ _ h1,
      importBatches_ne_nil _ _ h2, h3, importBatches_nil]
    simp only [ht0, ht1, ht2, hl2]
    norm_num
    rw [← hdd, List.take_append_drop]
  · rw [importBatches_ne_nil _ _ h0, importBatches_ne_nil _ _ h1,
      importBatches_ne_nil _ _ h2, h3, importBatches_nil]
    simp only [ht0, ht1, ht2, hl2]
    norm_num

/-- C8 (witness).  The batch-tolerance statement instantiated at a
concrete 120-row data set with batch 0 poisoned. -/
theorem claim_C8_witness :
    importBatches (fun j => decide (j ≠ 0)) 0 (List.replicate 120 (0 : Nat)) =
      (70, 50, (List.replicate 120 (0 : Nat)).drop 50) :=
  (claim_C8_batch_tolerance (List.replicate 120 (0 : Nat)) (by simp)).1

/-- C9.  Adding an item whose id is already present in the chosen
itinerary is rejected and the stored state is not mutated: immediately
after a successful add of `item`, a second add of the same `item` returns
the store unchanged with the `duplicate` outcome — in both the
itinerary-picker dialog variant and the `MyItinerary` append step. -/
theorem claim_C9_duplicate_rejected :
    (∀ (store store1 : List Itinerary) (I : String) (item : ItineraryItem),
      handleAddToItinerary store I item = (store1, .added) →
      handleAddToItinerary store1 I item = (store1, .duplicate))
    ∧ (∀ (spots spots1 : List ItineraryItem) (spot : ItineraryItem),
      myItineraryAddSpot spots spot = some spots1 →
      myItineraryAddSpot spots1 spot = none) := by
  constructor
  · intro store store1 I item hadd
    rw [handleAddToItinerary] at hadd
    cases hf : fetchSingleItinerary store I with
    | none => rw [hf] at hadd; simp at hadd
    | some it =>
      rw [hf] at hadd
      simp only at hadd
      by_cases hdup : it.spots.any (fun s => decide (s.id = item.id)) = true
      · rw [if_pos hdup] at hadd; simp at hadd
      · rw [if_neg hdup] at hadd
        simp only [Prod.mk.injEq] at hadd
        obtain ⟨hstore, -⟩ := hadd
        subst hstore
        have hid : it.id = I := fetchSingle_id hf
        have hg : ∀ j : Itinerary,
            ((fun j => if j.id = I then
              { j with spots := it.spots ++ [item] } else j) j).id = j.id := by
          intro j; by_cases hj : j.id = I <;> simp [hj]
        have hfetch1 : fetchSingleItinerary
            (store.map (fun j => if j.id = I then
              { j with spots := it.spots ++ [item] } else j)) I =
            some { it with spots := it.spots ++ [item] } := by
          rw [fetchSingleItinerary, filter_map_preserves_id hg,
            fetchSingle_filter hf]
          simp [hid]
        rw [handleAddToItinerary, hfetch1]
        simp only
        rw [if_pos (by simp [List.any_append])]
  · intro spots spots1 spot hadd
    rw [myItineraryAddSpot] at hadd
    by_cases hdup : spots.any (fun s => decide (s.id = spot.id)) = true
    · rw [if_pos hdup] at hadd; simp at hadd
    · rw [if_neg hdup] at hadd
      simp only [Option.some.injEq] at hadd
      subst hadd
      rw [myItineraryAddSpot, if_pos (by simp [List.any_append])]

/-- C9 (witness).  The rejection statement instantiated at the one-row
store that already contains the item. -/
theorem claim_C9_witness :
    handleAddToItinerary tripStoreAfter "i1" tripItem =
      (tripStoreAfter, .duplicate) :=
  claim_C9_duplicate_rejected.1 tripStore tripStoreAfter "i1" tripItem
    (by decide)

/-- C10.  Whenever the add-to-itinerary operation succeeds, the resulting
store is exactly the input store with the chosen itinerary's spots list
replaced by its previous value with the single new item appended at the
end: every other itinerary is mapped to itself (unmodified), the existing
elements and their relative order are preserved, and in the `MyItinerary`
variant the updated list is the previous list with the spot appended. -/
theorem claim_C10_append_frame :
    (∀ (store store1 : List Itinerary) (I : String) (item : ItineraryItem),
      handleAddToItinerary store I item = (store1, .added) →
      store1 = store.map (fun j =>
        if j.id = I then { j with spots := j.spots ++ [item] } else j))
    ∧ (∀ (spots out : List ItineraryItem) (spot : ItineraryItem),
      myItineraryAddSpot spots spot = some out → out = spots ++ [spot]) := by
  constructor
  · intro store store1 I item hadd
    rw [handleAddToItinerary] at hadd
    cases hf : fetchSingleItinerary store I with
    | none => rw [hf] at hadd; simp at hadd
    | some it =>
      rw [hf] at hadd
      simp only at hadd
      by_cases hdup : it.spots.any (fun s => decide (s.id = item.id)) = true
      · rw [if_pos hdup] at hadd; simp at hadd
      · rw [if_neg hdup] at hadd
        simp only [Prod.mk.injEq] at hadd
        obtain ⟨hstore, -⟩ := hadd
        rw [← hstore]
        apply List.map_congr_left
        intro j hj
        by_cases hjid : j.id = I
        · have hjf : j ∈ store.filter (fun j => decide (j.id = I)) :=
            List.mem_filter.mpr ⟨hj, decide_eq_true hjid⟩
          rw [fetchSingle_filter hf] at hjf
          have : j = it := List.mem_singleton.mp hjf
          subst this
          simp [hjid]
        · simp [hjid]
  · intro spots out spot hadd
    rw [myItineraryAddSpot] at hadd
    by_cases hdup : spots.any (fun s => decide (s.id = spot.id)) = true
    · rw [if_pos hdup] at hadd; simp at hadd
    · rw [if_neg hdup] at hadd
      simp only [Option.some.injEq] at hadd
      exact hadd.symm

/-- C10 (witness).  The frame statement instantiated at the one-itinerary
store: the store after the add equals the mapped update of the store
before it. -/
theorem claim_C10_witness :
    tripStoreAfter = tripStore.map (fun j =>
      if j.id = "i1" then { j with spots := j.spots ++ [tripItem] } else j) :=
  claim_C10_append_frame.1 tripStore tripStoreAfter "i1" tripItem (by decide)

end Wander
